import Mathlib

/-!
# Verification of `message_handler.py` (colincummins/pdfit)

Shallow embedding of `src/message_handler.py`: a type-routed message
dispatcher.  Messages and replies are Python dicts with string keys, modelled
as association lists `List (String × Value)`.  Python `bytes` values are
`List Nat` with entries `< 256`.  Fallible Python code is modelled in
`Except PyExc`, where `PyExc` enumerates the exception kinds that can flow
through `MessageHandler.generate_reply`: the module's four custom exception
classes, `KeyError`, and the library exceptions (`binascii.Error`,
`TypeError`, `ValueError`) raised by `base64.b64decode` / `base64.b64encode`,
plus a catch-all for any other handler fault.

The base64 primitives are translated from the CPython implementation the
source calls: `base64.b64decode(s)` with the default `validate=False` ASCII-
encodes its string argument (raising `ValueError` on non-ASCII input) and
hands it to `binascii.a2b_base64` in non-strict mode, which *discards*
characters outside the base64 alphabet, stops at a completed padding group,
and raises `binascii.Error` when the number of remaining data characters is
incompatible with the padding; `base64.b64encode` encodes 3-byte groups into
4 alphabet characters with `=` padding and raises `TypeError` on non-bytes
input (it never raises `binascii.Error`).  Bit operations of the C source
(`x >> 2`, `x & 0x3`, `x << 4`, `|` on disjoint bits) are written as the
equal arithmetic operations on `Nat` (`x / 4`, `x % 4`, `x * 16`, `+`).
-/

set_option autoImplicit false

namespace MessageHandlerPy

/-- A Python value as it can appear in a message/reply dict in this module:
a `str`, a `bytes` object, or an `int` (standing in for any other
non-bytes-like object a caller or handler might supply). -/
inductive Value where
  | str (s : String)
  | bytes (b : List Nat)
  | intV (n : Int)
  deriving DecidableEq, Repr

/-- A Python dict with string keys, as an association list (first occurrence
of a key wins on lookup, as dict keys are unique). -/
def Message := List (String × Value)

instance : DecidableEq Message := by
  unfold Message
  infer_instance

/-- Python dict subscript read `m[k]`: `some v` if present, else the caller
sees a `KeyError`. -/
def lookup (m : Message) (k : String) : Option Value :=
  match m with
  | [] => none
  | (k', v) :: rest => if k' = k then some v else lookup rest k

/-- Python dict subscript assignment `m[k] = v`: replaces the value of an
existing key in place, appends the key if absent. -/
def setKey (m : Message) (k : String) (v : Value) : Message :=
  match m with
  | [] => [(k, v)]
  | (k', v') :: rest => if k' = k then (k, v) :: rest else (k', v') :: setKey rest k v

/-- The keys of the dict, in order. -/
def keys (m : Message) : List String :=
  m.map Prod.fst

/-- The exceptions that can flow through `generate_reply`'s `try` block. -/
inductive PyExc where
  /-- `UnrecognizedFileTypeError`, `.message = "File type not recognized"`. -/
  | unrecognizedFileType
  /-- `MissingPayloadError`, `.message = "Message has no payload"`. -/
  | missingPayload
  /-- `PayloadNotBase64Error`, `.message = "Message payload cannot be decoded from base64"`. -/
  | payloadNotBase64
  /-- `CantEncodePayloadError`, `.message = "Cannot encode payload into base64"`. -/
  | cantEncodePayload
  /-- `KeyError(k)` for a string key `k`; `str` of it is `repr(k) = "'k'"`. -/
  | keyError (k : String)
  /-- `binascii.Error(msg)` (a `ValueError` subclass raised by `a2b_base64`). -/
  | binasciiError (msg : String)
  /-- `TypeError(msg)`. -/
  | typeError (msg : String)
  /-- `ValueError(msg)` (not a `binascii.Error`). -/
  | valueError (msg : String)
  /-- Any other exception a handler might raise, with its `str(error)` text. -/
  | other (msg : String)
  deriving DecidableEq, Repr

/-- `str(error)` for the exceptions above (for `KeyError` CPython prints the
`repr` of the key, hence the quotes). -/
def PyExc.text : PyExc → String
  | .unrecognizedFileType => "File type not recognized"
  | .missingPayload => "Message has no payload"
  | .payloadNotBase64 => "Message payload cannot be decoded from base64"
  | .cantEncodePayload => "Cannot encode payload into base64"
  | .keyError k => "'" ++ k ++ "'"
  | .binasciiError msg => msg
  | .typeError msg => msg
  | .valueError msg => msg
  | .other msg => msg

/-! ## The base64 transcoder (`base64.b64encode` / `base64.b64decode`) -/

/-- Index of a byte in the standard base64 alphabet (`A-Z a-z 0-9 + /`),
`none` for bytes outside the alphabet: the decode table `table_a2b_base64`
of CPython's `binascii.c`. -/
def b64val (c : Nat) : Option Nat :=
  if 65 ≤ c ∧ c ≤ 90 then some (c - 65)
  else if 97 ≤ c ∧ c ≤ 122 then some (c - 71)
  else if 48 ≤ c ∧ c ≤ 57 then some (c + 4)
  else if c = 43 then some 62
  else if c = 47 then some 63
  else none

/-- Byte of the standard base64 alphabet character for a 6-bit value:
the encode table `table_b2a_base64` of CPython's `binascii.c`. -/
def b64char (v : Nat) : Nat :=
  if v < 26 then v + 65
  else if v < 52 then v + 71
  else if v < 62 then v - 4
  else if v = 62 then 43
  else 47

/-- `binascii.b2a_base64(_, newline=False)`: 3 input bytes become 4 alphabet
characters; 1 or 2 trailing bytes are padded with `=` (byte 61). -/
def b2a : List Nat → List Nat
  | a :: b :: c :: rest =>
      b64char (a / 4) :: b64char (a % 4 * 16 + b / 16) ::
      b64char (b % 16 * 4 + c / 64) :: b64char (c % 64) :: b2a rest
  | [a, b] => [b64char (a / 4), b64char (a % 4 * 16 + b / 16), b64char (b % 16 * 4), 61]
  | [a] => [b64char (a / 4), b64char (a % 4 * 16), 61, 61]
  | [] => []

/-- `binascii.a2b_base64(_, strict_mode=False)`, the state machine of
`binascii.c`: `qp` is `quad_pos`, `lc` is `leftchar`, `pads` the count of
consecutive pending pad characters.  A `=` (byte 61) with `quad_pos < 2` is
ignored; one completing a group (`quad_pos + pads ≥ 4` counting itself) ends
decoding; bytes outside the alphabet are discarded; input exhausted mid-quad
is a `binascii.Error` whose message depends on `quad_pos`. -/
def a2b : List Nat → Nat → Nat → Nat → Except String (List Nat)
  | [], qp, _, _ =>
      if qp = 0 then .ok []
      else if qp = 1 then
        .error "Invalid base64-encoded string: number of data characters cannot be 1 more than a multiple of 4"
      else .error "Incorrect padding"
  | c :: rest, qp, lc, pads =>
      if c = 61 then
        if 2 ≤ qp then
          if 4 ≤ qp + (pads + 1) then .ok []
          else a2b rest qp lc (pads + 1)
        else a2b rest qp lc pads
      else
        match b64val c with
        | none => a2b rest qp lc pads
        | some v =>
          match qp with
          | 0 => a2b rest 1 v 0
          | 1 => (a2b rest 2 (v % 16) 0).map (fun out => (lc * 4 + v / 16) :: out)
          | 2 => (a2b rest 3 (v % 4) 0).map (fun out => (lc * 16 + v / 4) :: out)
          | _ => (a2b rest 0 0 0).map (fun out => (lc * 64 + v) :: out)

/-- `base64.b64decode(v)` with the default `validate=False`.  A `str`
argument is ASCII-encoded first (`ValueError` on non-ASCII characters), a
`bytes` argument is passed through; anything else is a `TypeError`.  The
byte string then goes through `a2b_base64`, whose errors are
`binascii.Error`. -/
def b64decode (v : Value) : Except PyExc (List Nat) :=
  match v with
  | .str s =>
      if s.data.all (fun c => c.toNat ≤ 127) then
        match a2b (s.data.map Char.toNat) 0 0 0 with
        | .ok out => .ok out
        | .error msg => .error (.binasciiError msg)
      else .error (.valueError "string argument should contain only ASCII characters")
  | .bytes b =>
      match a2b b 0 0 0 with
      | .ok out => .ok out
      | .error msg => .error (.binasciiError msg)
  | .intV _ => .error (.typeError "argument should be a bytes-like object or ASCII string, not 'int'")

/-- `base64.b64encode(v).decode("utf-8")`: only bytes-like input encodes
(the output is pure ASCII, so the trailing `.decode("utf-8")` of the source
always succeeds); `b2a_base64` raises `TypeError` on anything else and never
raises `binascii.Error`. -/
def b64encode (v : Value) : Except PyExc String :=
  match v with
  | .bytes b => .ok (String.mk ((b2a b).map Char.ofNat))
  | .str _ => .error (.typeError "a bytes-like object is required, not 'str'")
  | .intV _ => .error (.typeError "a bytes-like object is required, not 'int'")

/-! ## The module-level transcoding wrappers -/

/-- `decode_payload(message)`: reads `message['payload']` (a missing key is a
`KeyError` raised by the subscript before the decode), decodes it from
base64 and stores the result back; `binascii.Error` is converted to
`PayloadNotBase64Error`, any other exception propagates (`binascii.Error`
is a subclass of `ValueError`, so the plain `ValueError` raised for
non-ASCII input is not caught by the `except binascii.Error` clause). -/
def decode_payload (message : Message) : Except PyExc Message :=
  match lookup message "payload" with
  | none => .error (.keyError "payload")
  | some v =>
      match b64decode v with
      | .ok out => .ok (setKey message "payload" (.bytes out))
      | .error (.binasciiError _) => .error .payloadNotBase64
      | .error e => .error e

/-- `encode_payload(message)`: reads `message['payload']`, base64-encodes it
and stores the resulting text back; `binascii.Error` is converted to
`CantEncodePayloadError`, any other exception (e.g. the `TypeError` on a
non-bytes payload) propagates. -/
def encode_payload (message : Message) : Except PyExc Message :=
  match lookup message "payload" with
  | none => .error (.keyError "payload")
  | some v =>
      match b64encode v with
      | .ok s => .ok (setKey message "payload" (.str s))
      | .error (.binasciiError _) => .error .cantEncodePayload
      | .error e => .error e

/-! ## The dispatcher (`MessageHandler`) -/

/-- A registered handler: called with every field of the (decoded) message
as named arguments, returns an arbitrary value or raises. -/
def Handler := Message → Except PyExc Value

/-- `self.function_dictionary`: the type → handler registry. -/
def Registry := List (String × Handler)

/-- Registry lookup by string key. -/
def regLookup (fd : Registry) (t : String) : Option Handler :=
  match fd with
  | [] => none
  | (k, f) :: rest => if k = t then some f else regLookup rest t

/-- `message_json['type'] in self.function_dictionary`: only a `str` value
can be a key of the string-keyed registry. -/
def valueInRegistry (fd : Registry) (v : Value) : Bool :=
  match v with
  | .str s => (regLookup fd s).isSome
  | _ => false

/-- `repr` of a dict key for the `KeyError` a failed registry subscript
would carry (unreachable after a successful `validate_json`). -/
def valueKeyText (v : Value) : String :=
  match v with
  | .str s => s
  | .bytes _ => "bytes-key"
  | .intV _ => "int-key"

/-- `MessageHandler.validate_json`: raises `KeyError('type')` when the key
is absent (the subscript), `UnrecognizedFileTypeError` when its value is not
a registry key; it never looks at `payload`. -/
def validate_json (fd : Registry) (message_json : Message) : Except PyExc Unit :=
  match lookup message_json "type" with
  | none => .error (.keyError "type")
  | some v => if valueInRegistry fd v then .ok () else .error .unrecognizedFileType

/-- `self.function_dictionary[message['type']]` on line 105: both subscripts
re-done on the decoded message. -/
def handlerLookup (fd : Registry) (m : Message) : Except PyExc Handler :=
  match lookup m "type" with
  | none => .error (.keyError "type")
  | some v =>
      match v with
      | .str s =>
          match regLookup fd s with
          | some f => .ok f
          | none => .error (.keyError s)
      | w => .error (.keyError (valueKeyText w))

/-- The `try` block of `generate_reply`, lines 102–107: validate, decode,
invoke the handler with the decoded message, wrap in the success envelope,
encode the envelope's payload. -/
def dispatchBody (fd : Registry) (message : Message) : Except PyExc Message :=
  match validate_json fd message with
  | .error e => .error e
  | .ok _ =>
      match decode_payload message with
      | .error e => .error e
      | .ok m =>
          match handlerLookup fd m with
          | .error e => .error e
          | .ok f =>
              match f m with
              | .error e => .error e
              | .ok reply_payload =>
                  encode_payload [("status", Value.str "ok"), ("payload", reply_payload)]

/-- The `except` clauses of `generate_reply`, lines 108–113, in order: the
four custom exceptions are reported by their `.message`, `KeyError` by
`"JSON object missing required field" + str(error)`, everything else by
`"Server error: " + str(error)`. -/
def handleExc (e : PyExc) : Message :=
  match e with
  | .unrecognizedFileType => [("status", .str "error"), ("payload", .str "File type not recognized")]
  | .missingPayload => [("status", .str "error"), ("payload", .str "Message has no payload")]
  | .payloadNotBase64 =>
      [("status", .str "error"), ("payload", .str "Message payload cannot be decoded from base64")]
  | .cantEncodePayload =>
      [("status", .str "error"), ("payload", .str "Cannot encode payload into base64")]
  | .keyError k =>
      [("status", .str "error"),
       ("payload", .str ("JSON object missing required field" ++ PyExc.text (.keyError k)))]
  | e => [("status", .str "error"), ("payload", .str ("Server error: " ++ e.text))]

/-- `MessageHandler.generate_reply`: the `try` body with every exception
converted to an error reply. -/
def generate_reply (fd : Registry) (message : Message) : Message :=
  match dispatchBody fd message with
  | .ok reply => reply
  | .error e => handleExc e

/-- Shorthand for the error reply shape. -/
def errReply (msg : String) : Message :=
  [("status", .str "error"), ("payload", .str msg)]

/-- Exceptions that fall through to the `except Exception` clause: not one
of the module's four custom exceptions and not a `KeyError`. -/
def PyExc.isUnclassified : PyExc → Bool
  | .unrecognizedFileType => false
  | .missingPayload => false
  | .payloadNotBase64 => false
  | .cantEncodePayload => false
  | .keyError _ => false
  | _ => true

/-! ## Lemmas about the base64 tables and the `a2b` state machine -/

theorem b64val_b64char : ∀ v : Nat, v < 64 → b64val (b64char v) = some v := by decide

theorem b64char_ne_pad : ∀ v : Nat, v < 64 → b64char v ≠ 61 := by decide

theorem b64char_le_127 (v : Nat) : b64char v ≤ 127 := by
  simp only [b64char]
  repeat' split
  all_goals omega

theorem a2b_cons_discard (c : Nat) (hc : b64val c = none) (hpad : c ≠ 61)
    (r : List Nat) (qp lc pads : Nat) :
    a2b (c :: r) qp lc pads = a2b r qp lc pads := by
  simp only [a2b, if_neg hpad, hc]

theorem a2b_cons_alpha0 (v : Nat) (hv : v < 64) (r : List Nat) (lc pads : Nat) :
    a2b (b64char v :: r) 0 lc pads = a2b r 1 v 0 := by
  simp only [a2b, if_neg (b64char_ne_pad v hv), b64val_b64char v hv]

theorem a2b_cons_alpha1 (v : Nat) (hv : v < 64) (r : List Nat) (lc pads : Nat) :
    a2b (b64char v :: r) 1 lc pads =
      (a2b r 2 (v % 16) 0).map (fun out => (lc * 4 + v / 16) :: out) := by
  simp only [a2b, if_neg (b64char_ne_pad v hv), b64val_b64char v hv]

theorem a2b_cons_alpha2 (v : Nat) (hv : v < 64) (r : List Nat) (lc pads : Nat) :
    a2b (b64char v :: r) 2 lc pads =
      (a2b r 3 (v % 4) 0).map (fun out => (lc * 16 + v / 4) :: out) := by
  simp only [a2b, if_neg (b64char_ne_pad v hv), b64val_b64char v hv]

theorem a2b_cons_alpha3 (v : Nat) (hv : v < 64) (r : List Nat) (lc pads : Nat) :
    a2b (b64char v :: r) 3 lc pads =
      (a2b r 0 0 0).map (fun out => (lc * 64 + v) :: out) := by
  simp only [a2b, if_neg (b64char_ne_pad v hv), b64val_b64char v hv]

theorem a2b_two_pads (lc : Nat) : a2b [61, 61] 2 lc 0 = .ok [] := rfl

theorem a2b_one_pad (lc : Nat) : a2b [61] 3 lc 0 = .ok [] := rfl

/-- Decoding inverts encoding on the alphabet-character level: the heart of
the round-trip property. -/
theorem a2b_b2a : ∀ (P : List Nat), (∀ x ∈ P, x < 256) → a2b (b2a P) 0 0 0 = Except.ok P
  | [], _ => rfl
  | [a], h => by
      have ha : a < 256 := h a (by simp)
      have h1 : a / 4 < 64 := by omega
      have h2 : a % 4 * 16 < 64 := by omega
      show a2b [b64char (a / 4), b64char (a % 4 * 16), 61, 61] 0 0 0 = Except.ok [a]
      rw [a2b_cons_alpha0 _ h1, a2b_cons_alpha1 _ h2, a2b_two_pads]
      simp only [Except.map]
      have e1 : a / 4 * 4 + a % 4 * 16 / 16 = a := by omega
      rw [e1]
  | [a, b], h => by
      have ha : a < 256 := h a (by simp)
      have hb : b < 256 := h b (by simp)
      have h1 : a / 4 < 64 := by omega
      have h2 : a % 4 * 16 + b / 16 < 64 := by omega
      have h3 : b % 16 * 4 < 64 := by omega
      show a2b [b64char (a / 4), b64char (a % 4 * 16 + b / 16), b64char (b % 16 * 4), 61]
          0 0 0 = Except.ok [a, b]
      rw [a2b_cons_alpha0 _ h1, a2b_cons_alpha1 _ h2, a2b_cons_alpha2 _ h3, a2b_one_pad]
      simp only [Except.map]
      have e1 : a / 4 * 4 + (a % 4 * 16 + b / 16) / 16 = a := by omega
      have e2 : (a % 4 * 16 + b / 16) % 16 * 16 + b % 16 * 4 / 4 = b := by omega
      rw [e1, e2]
  | a :: b :: c :: rest, h => by
      have ha : a < 256 := h a (by simp)
      have hb : b < 256 := h b (by simp)
      have hc : c < 256 := h c (by simp)
      have ih := a2b_b2a rest (fun x hx => h x (by simp [hx]))
      have h1 : a / 4 < 64 := by omega
      have h2 : a % 4 * 16 + b / 16 < 64 := by omega
      have h3 : b % 16 * 4 + c / 64 < 64 := by omega
      have h4 : c % 64 < 64 := by omega
      show a2b (b64char (a / 4) :: b64char (a % 4 * 16 + b / 16) ::
          b64char (b % 16 * 4 + c / 64) :: b64char (c % 64) :: b2a rest) 0 0 0 =
          Except.ok (a :: b :: c :: rest)
      rw [a2b_cons_alpha0 _ h1, a2b_cons_alpha1 _ h2, a2b_cons_alpha2 _ h3,
        a2b_cons_alpha3 _ h4, ih]
      simp only [Except.map]
      have e1 : a / 4 * 4 + (a % 4 * 16 + b / 16) / 16 = a := by omega
      have e2 : (a % 4 * 16 + b / 16) % 16 * 16 + (b % 16 * 4 + c / 64) / 4 = b := by omega
      have e3 : (b % 16 * 4 + c / 64) % 4 * 64 + c % 64 = c := by omega
      rw [e1, e2, e3]

/-- Every byte the encoder emits is ASCII. -/
theorem mem_b2a_le_127 : ∀ (P : List Nat), ∀ x ∈ b2a P, x ≤ 127
  | [], x, hx => by simp [b2a] at hx
  | [a], x, hx => by
      simp only [b2a, List.mem_cons, List.not_mem_nil, or_false] at hx
      rcases hx with rfl | rfl | rfl | rfl <;> first | exact b64char_le_127 _ | omega
  | [a, b], x, hx => by
      simp only [b2a, List.mem_cons, List.not_mem_nil, or_false] at hx
      rcases hx with rfl | rfl | rfl | rfl <;> first | exact b64char_le_127 _ | omega
  | a :: b :: c :: rest, x, hx => by
      simp only [b2a, List.mem_cons] at hx
      rcases hx with rfl | rfl | rfl | rfl | hx
      · exact b64char_le_127 _
      · exact b64char_le_127 _
      · exact b64char_le_127 _
      · exact b64char_le_127 _
      · exact mem_b2a_le_127 rest x hx

theorem char_toNat_ofNat (n : Nat) (h : n ≤ 127) : (Char.ofNat n).toNat = n := by
  have hv : n.isValidChar := Or.inl (by omega)
  simp [Char.ofNat, hv, Char.ofNatAux, Char.toNat, UInt32.toNat, BitVec.toNat_ofNatLt]

theorem map_char_roundtrip : ∀ (l : List Nat), (∀ x ∈ l, x ≤ 127) →
    (l.map Char.ofNat).map Char.toNat = l
  | [], _ => rfl
  | x :: xs, h => by
      simp only [List.map_cons, List.cons.injEq]
      exact ⟨char_toNat_ofNat x (h x (by simp)),
        map_char_roundtrip xs (fun y hy => h y (by simp [hy]))⟩

/-- `b64decode` inverts `b64encode` on binary payloads. -/
theorem b64decode_b64encode (P : List Nat) (h : ∀ x ∈ P, x < 256) :
    b64decode (.str (String.mk ((b2a P).map Char.ofNat))) = .ok P := by
  have hall : ∀ c ∈ (b2a P).map Char.ofNat, c.toNat ≤ 127 := by
    intro c hc
    obtain ⟨x, hx, rfl⟩ := List.mem_map.mp hc
    rw [char_toNat_ofNat x (mem_b2a_le_127 P x hx)]
    exact mem_b2a_le_127 P x hx
  have hmap : ((b2a P).map Char.ofNat).map Char.toNat = b2a P :=
    map_char_roundtrip (b2a P) (mem_b2a_le_127 P)
  simp only [b64decode, String.data]
  rw [List.all_eq_true.mpr (fun c hc => decide_eq_true (hall c hc))]
  rw [if_pos rfl, hmap, a2b_b2a P h]

/-! ## Lemmas about dict reads and writes -/

theorem lookup_setKey_self : ∀ (m : Message) (k : String) (v : Value),
    lookup (setKey m k v) k = some v
  | [], k, v => by simp [setKey, lookup]
  | (k', v') :: rest, k, v => by
      by_cases h : k' = k
      · simp [setKey, h, lookup]
      · simp only [setKey, if_neg h, lookup, if_neg h]
        exact lookup_setKey_self rest k v

theorem lookup_setKey_ne : ∀ (m : Message) (k k' : String) (v : Value), k' ≠ k →
    lookup (setKey m k v) k' = lookup m k'
  | [], k, k', v, h => by simp [setKey, lookup, Ne.symm h]
  | (k₀, v₀) :: rest, k, k', v, h => by
      by_cases h0 : k₀ = k
      · subst h0
        simp [setKey, lookup, Ne.symm h]
      · simp only [setKey, if_neg h0, lookup]
        by_cases h1 : k₀ = k'
        · simp [h1]
        · simp only [if_neg h1]
          exact lookup_setKey_ne rest k k' v h

theorem keys_setKey : ∀ (m : Message) (k : String) (v : Value),
    (lookup m k).isSome → keys (setKey m k v) = keys m
  | [], k, v, h => by simp [lookup] at h
  | (k₀, v₀) :: rest, k, v, h => by
      by_cases h0 : k₀ = k
      · simp [setKey, h0, keys]
      · simp only [lookup, if_neg h0] at h
        simp only [setKey, if_neg h0, keys, List.map_cons, List.cons.injEq, true_and]
        exact keys_setKey rest k v h

/-! ## Lemmas about the dispatch pipeline -/

/-- An exception anywhere in the `try` body surfaces as the matching
`except` clause's reply. -/
theorem generate_reply_error (fd : Registry) (m : Message) (e : PyExc)
    (h : dispatchBody fd m = .error e) : generate_reply fd m = handleExc e := by
  simp [generate_reply, h]

theorem dispatchBody_handler_error (fd : Registry) (m m' : Message) (f : Handler) (e : PyExc)
    (h1 : validate_json fd m = .ok ()) (h2 : decode_payload m = .ok m')
    (h3 : handlerLookup fd m' = .ok f) (h4 : f m' = .error e) :
    dispatchBody fd m = .error e := by
  simp only [dispatchBody, h1, h2, h3, h4]

theorem dispatchBody_handler_ok (fd : Registry) (m m' : Message) (f : Handler) (v : Value)
    (h1 : validate_json fd m = .ok ()) (h2 : decode_payload m = .ok m')
    (h3 : handlerLookup fd m' = .ok f) (h4 : f m' = .ok v) :
    dispatchBody fd m = encode_payload [("status", .str "ok"), ("payload", v)] := by
  simp only [dispatchBody, h1, h2, h3, h4]

/-- Success envelopes keep their shape through `encode_payload`. -/
theorem encode_envelope_ok (a v : Value) (r : Message)
    (h : encode_payload [("status", a), ("payload", v)] = .ok r) :
    ∃ s, r = [("status", a), ("payload", Value.str s)] := by
  have hl : lookup [("status", a), ("payload", v)] "payload" = some v := rfl
  cases hv : b64encode v with
  | ok s =>
      refine ⟨s, ?_⟩
      have hs : setKey [("status", a), ("payload", v)] "payload" (Value.str s) =
          [("status", a), ("payload", Value.str s)] := rfl
      simp only [encode_payload, hl, hv, hs] at h
      exact (Except.ok.injEq _ _).mp h |>.symm
  | error e =>
      cases e <;> simp only [encode_payload, hl, hv] at h <;> cases h

theorem dispatchBody_ok_shape (fd : Registry) (m r : Message)
    (h : dispatchBody fd m = .ok r) :
    ∃ s, r = [("status", Value.str "ok"), ("payload", Value.str s)] := by
  unfold dispatchBody at h
  cases h1 : validate_json fd m with
  | error e => simp only [h1] at h; cases h
  | ok u =>
    simp only [h1] at h
    cases h2 : decode_payload m with
    | error e => simp only [h2] at h; cases h
    | ok m' =>
      simp only [h2] at h
      cases h3 : handlerLookup fd m' with
      | error e => simp only [h3] at h; cases h
      | ok f =>
        simp only [h3] at h
        cases h4 : f m' with
        | error e => simp only [h4] at h; cases h
        | ok v =>
          simp only [h4] at h
          exact encode_envelope_ok _ _ _ h

/-- The unclassified faults reach the final `except Exception` clause. -/
theorem handleExc_unclassified (e : PyExc) (h : e.isUnclassified = true) :
    handleExc e = errReply ("Server error: " ++ e.text) := by
  cases e <;> first | rfl | simp [PyExc.isUnclassified] at h

/-! ## Example handlers used in the spec's scenarios -/

/-- The `"echo"` handler of the spec's happy-path scenario: returns the
(decoded) `payload` field it was called with. -/
def echoHandler : Handler := fun m =>
  match lookup m "payload" with
  | some v => .ok v
  | none => .error (.keyError "payload")

/-- A handler that requires the message field `k`: raises `KeyError(k)`
when the field is absent from the message it receives. -/
def needsField (k : String) : Handler := fun m =>
  match lookup m k with
  | some v => .ok v
  | none => .error (.keyError k)

/-- A handler that fails with an arbitrary unclassified exception. -/
def boomHandler : Handler := fun _ => .error (.other "boom")

/-- A handler that raises a `KeyError` of its own, unrelated to any message
field. -/
def keyFaultHandler : Handler := fun _ => .error (.keyError "unrelated")

/-- A handler whose result is a `str`, which `b64encode` cannot encode. -/
def strResultHandler : Handler := fun _ => .ok (.str "oops")

/-! ## The claims -/

/-- C1: for every input message — any mapping, with or without the `type`
or `payload` keys — and every registry of handlers, each free to raise any
exception, `generate_reply` returns a reply mapping with both `status` and
`payload` set and with `status` equal to `"ok"` or `"error"`; it is a total
function of its inputs, so no fault reaches the caller. -/
theorem c1_dispatch_never_throws (fd : Registry) (m : Message) :
    (lookup (generate_reply fd m) "status" = some (Value.str "ok") ∨
      lookup (generate_reply fd m) "status" = some (Value.str "error")) ∧
    ∃ v, lookup (generate_reply fd m) "payload" = some v := by
  cases h : dispatchBody fd m with
  | ok r =>
      have hg : generate_reply fd m = r := by simp [generate_reply, h]
      obtain ⟨s, rfl⟩ := dispatchBody_ok_shape fd m r h
      rw [hg]
      exact ⟨Or.inl rfl, ⟨_, rfl⟩⟩
  | error e =>
      have hg : generate_reply fd m = handleExc e := by simp [generate_reply, h]
      rw [hg]
      cases e <;> exact ⟨Or.inr rfl, ⟨_, rfl⟩⟩

/-- C2: with a handler registered under `"echo"` that returns its decoded
payload unchanged, dispatching `{"type": "echo", "payload": encode("hi")}`
returns `{"status": "ok", "payload": encode("hi")}`: the success reply's
payload is the base64 re-encoding `"aGk="` of the handler's binary result
`b"hi" = [104, 105]`. -/
theorem c2_happy_path :
    b64encode (.bytes [104, 105]) = .ok "aGk=" ∧
    generate_reply [("echo", echoHandler)]
        [("type", .str "echo"), ("payload", .str "aGk=")] =
      [("status", .str "ok"), ("payload", .str "aGk=")] :=
  ⟨rfl, rfl⟩

/-- C3: for every binary payload `P` (a list of bytes), encoding a
message's `payload` and then decoding the message so produced gives back a
`payload` equal to exactly `P`. -/
theorem c3_roundtrip (P : List Nat) (hP : ∀ x ∈ P, x < 256)
    (m : Message) (hm : lookup m "payload" = some (Value.bytes P)) :
    ∃ m', encode_payload m = .ok m' ∧
      ∃ m'', decode_payload m' = .ok m'' ∧
        lookup m'' "payload" = some (Value.bytes P) := by
  refine ⟨setKey m "payload" (.str (String.mk ((b2a P).map Char.ofNat))), ?_, ?_⟩
  · simp only [encode_payload, hm, b64encode]
  · have hl : lookup (setKey m "payload" (.str (String.mk ((b2a P).map Char.ofNat))))
        "payload" = some (.str (String.mk ((b2a P).map Char.ofNat))) :=
      lookup_setKey_self m "payload" _
    refine ⟨setKey (setKey m "payload" (.str (String.mk ((b2a P).map Char.ofNat))))
      "payload" (.bytes P), ?_, lookup_setKey_self _ "payload" _⟩
    simp only [decode_payload, hl, b64decode_b64encode P hP]

/-- Witness for C3 at the payload `b"hi"`. -/
theorem c3_roundtrip_witness :
    ∃ m', encode_payload [("payload", Value.bytes [104, 105])] = .ok m' ∧
      ∃ m'', decode_payload m' = .ok m'' ∧
        lookup m'' "payload" = some (Value.bytes [104, 105]) :=
  c3_roundtrip [104, 105] (by decide) [("payload", Value.bytes [104, 105])] rfl

theorem dispatchBody_validate_error (fd : Registry) (m : Message) (e : PyExc)
    (h : validate_json fd m = .error e) : dispatchBody fd m = .error e := by
  simp only [dispatchBody, h]

theorem dispatchBody_decode_error (fd : Registry) (m : Message) (e : PyExc)
    (h1 : validate_json fd m = .ok ()) (h2 : decode_payload m = .error e) :
    dispatchBody fd m = .error e := by
  simp only [dispatchBody, h1, h2]

/-- The `except KeyError` clause builds its reply from `str(error)`, the
`repr` of the missing key. -/
theorem handleExc_keyError (k : String) :
    handleExc (.keyError k) =
      errReply ("JSON object missing required field'" ++ k ++ "'") := by
  simp only [handleExc, errReply, PyExc.text]
  rw [← String.append_assoc, ← String.append_assoc]
  rfl

/-- `b64decode` only fails with `binascii.Error`, `ValueError` or
`TypeError`, never with one of the module's own exceptions. -/
theorem b64decode_ne_missingPayload (v : Value) : b64decode v ≠ .error .missingPayload := by
  cases v with
  | str s =>
      simp only [b64decode]
      split
      · cases h : a2b (s.data.map Char.toNat) 0 0 0 <;> simp [h]
      · simp
  | bytes b =>
      simp only [b64decode]
      cases h : a2b b 0 0 0 <;> simp [h]
  | intV n => simp [b64decode]

/-- `b64encode` succeeds on bytes and raises `TypeError` otherwise; in
particular it never raises `binascii.Error` or one of the module's own
exceptions. -/
theorem b64encode_errors (v : Value) :
    b64encode v ≠ .error .missingPayload ∧ b64encode v ≠ .error .cantEncodePayload ∧
    ∀ msg, b64encode v ≠ .error (.binasciiError msg) := by
  cases v <;> simp [b64encode]

theorem decode_payload_ne_missingPayload (m : Message) :
    decode_payload m ≠ .error .missingPayload := by
  simp only [decode_payload]
  cases hl : lookup m "payload" with
  | none => simp
  | some v =>
      cases hb : b64decode v with
      | ok out => simp [hb]
      | error e =>
          cases e with
          | missingPayload => exact absurd hb (b64decode_ne_missingPayload v)
          | unrecognizedFileType => simp [hb]
          | payloadNotBase64 => simp [hb]
          | cantEncodePayload => simp [hb]
          | keyError k => simp [hb]
          | binasciiError msg => simp [hb]
          | typeError msg => simp [hb]
          | valueError msg => simp [hb]
          | other msg => simp [hb]

theorem encode_payload_ne_missingPayload (m : Message) :
    encode_payload m ≠ .error .missingPayload := by
  simp only [encode_payload]
  cases hl : lookup m "payload" with
  | none => simp
  | some v =>
      cases hb : b64encode v with
      | ok s => simp [hb]
      | error e =>
          cases e with
          | missingPayload => exact absurd hb (b64encode_errors v).1
          | unrecognizedFileType => simp [hb]
          | payloadNotBase64 => simp [hb]
          | cantEncodePayload => simp [hb]
          | keyError k => simp [hb]
          | binasciiError msg => simp [hb]
          | typeError msg => simp [hb]
          | valueError msg => simp [hb]
          | other msg => simp [hb]

/-- `encode_payload` can never raise `CantEncodePayloadError`: the only
trigger would be a `binascii.Error` from `b64encode`, which cannot occur. -/
theorem encode_payload_ne_cantEncode (m : Message) :
    encode_payload m ≠ .error .cantEncodePayload := by
  simp only [encode_payload]
  cases hl : lookup m "payload" with
  | none => simp
  | some v =>
      cases hb : b64encode v with
      | ok s => simp [hb]
      | error e =>
          cases e with
          | cantEncodePayload => exact absurd hb (b64encode_errors v).2.1
          | binasciiError msg => exact absurd hb ((b64encode_errors v).2.2 msg)
          | unrecognizedFileType => simp [hb]
          | missingPayload => simp [hb]
          | payloadNotBase64 => simp [hb]
          | keyError k => simp [hb]
          | typeError msg => simp [hb]
          | valueError msg => simp [hb]
          | other msg => simp [hb]

theorem validate_json_ne_missingPayload (fd : Registry) (m : Message) :
    validate_json fd m ≠ .error .missingPayload := by
  simp only [validate_json]
  split
  · simp
  · split <;> simp

theorem handlerLookup_ne_missingPayload (fd : Registry) (m : Message) :
    handlerLookup fd m ≠ .error .missingPayload := by
  simp only [handlerLookup]
  repeat' split
  all_goals simp

/-- C4 counterexample: `"not-valid-encoding!!"` contains characters outside
the base64 alphabet (`-` and `!`), yet `decode_payload` does not fail with
`PayloadNotBase64Error`: it silently discards those characters and decodes
the rest, and dispatching the spec's example message to the `"echo"`
handler returns an `"ok"` reply carrying the re-encoding of the leniently
decoded bytes, not the claimed error reply. -/
theorem c4_counterexample :
    ("not-valid-encoding!!".data.map Char.toNat).any
        (fun c => (b64val c).isNone && c != 61) = true ∧
    decode_payload [("payload", .str "not-valid-encoding!!")] =
      .ok [("payload", .bytes [158, 139, 111, 106, 88, 157, 122, 119, 40, 118, 41, 224])] ∧
    generate_reply [("echo", echoHandler)]
        [("type", .str "echo"), ("payload", .str "not-valid-encoding!!")] =
      [("status", .str "ok"), ("payload", .str "notvalidencoding")] :=
  ⟨by decide, rfl, rfl⟩

/-- C4 amended: `decode_payload` silently discards characters outside the
base64 alphabet and fails with `PayloadNotBase64Error` exactly when the
data characters that remain are incompatible with the padding rules; the
spec's example `"not-valid-encoding!!"` therefore dispatches to an `"ok"`
reply, while a payload such as `"aGk!"` (whose surviving data characters
`aGk` are mis-padded) does produce the claimed error reply. -/
theorem c4_amended_decode_discards :
    (∀ c r qp lc pads, b64val c = none → c ≠ 61 →
      a2b (c :: r) qp lc pads = a2b r qp lc pads) ∧
    decode_payload [("payload", .str "not-valid-encoding!!")] =
      .ok [("payload", .bytes [158, 139, 111, 106, 88, 157, 122, 119, 40, 118, 41, 224])] ∧
    generate_reply [("echo", echoHandler)]
        [("type", .str "echo"), ("payload", .str "not-valid-encoding!!")] =
      [("status", .str "ok"), ("payload", .str "notvalidencoding")] ∧
    decode_payload [("payload", .str "aGk!")] = .error .payloadNotBase64 ∧
    generate_reply [("echo", echoHandler)]
        [("type", .str "echo"), ("payload", .str "aGk!")] =
      errReply "Message payload cannot be decoded from base64" :=
  ⟨fun c r qp lc pads hc hp => a2b_cons_discard c hc hp r qp lc pads, rfl, rfl, rfl, rfl⟩

/-- Witness for the amended C4: the discard step applied to `'!'` (byte 33)
in front of the encoding of `b"hi"`. -/
theorem c4_amended_witness :
    a2b [33, 97, 71, 107, 61] 0 0 0 = a2b [97, 71, 107, 61] 0 0 0 :=
  c4_amended_decode_discards.1 33 [97, 71, 107, 61] 0 0 0 (by decide) (by decide)

/-- C5: a required field absent at any stage is reported through the
`except KeyError` clause as `"JSON object missing required field" +
str(error)` (CPython renders `str(KeyError(k))` as `repr(k)`, hence the
quotes around the field name): a missing `type` key, a missing `payload`
key, and a handler raising `KeyError` for a field the decoded message
lacks all produce that reply; and no operation of the module ever raises
`MissingPayloadError`. -/
theorem c5_missing_field_reply :
    (∀ (fd : Registry) (m : Message), lookup m "type" = none →
      generate_reply fd m = errReply "JSON object missing required field'type'") ∧
    (∀ (fd : Registry) (m : Message), validate_json fd m = .ok () →
      lookup m "payload" = none →
      generate_reply fd m = errReply "JSON object missing required field'payload'") ∧
    (∀ (fd : Registry) (m m' : Message) (f : Handler) (k : String),
      validate_json fd m = .ok () → decode_payload m = .ok m' →
      handlerLookup fd m' = .ok f → lookup m' k = none →
      f m' = .error (.keyError k) →
      generate_reply fd m = errReply ("JSON object missing required field'" ++ k ++ "'")) ∧
    (∀ m : Message, decode_payload m ≠ .error .missingPayload) ∧
    (∀ m : Message, encode_payload m ≠ .error .missingPayload) ∧
    (∀ (fd : Registry) (m : Message), validate_json fd m ≠ .error .missingPayload) ∧
    (∀ (fd : Registry) (m : Message), handlerLookup fd m ≠ .error .missingPayload) := by
  refine ⟨?_, ?_, ?_, decode_payload_ne_missingPayload, encode_payload_ne_missingPayload,
    validate_json_ne_missingPayload, handlerLookup_ne_missingPayload⟩
  · intro fd m h
    have hv : validate_json fd m = .error (.keyError "type") := by
      simp only [validate_json, h]
    rw [generate_reply_error _ _ _ (dispatchBody_validate_error _ _ _ hv), handleExc_keyError]
    rfl
  · intro fd m h1 h2
    have hd : decode_payload m = .error (.keyError "payload") := by
      simp only [decode_payload, h2]
    rw [generate_reply_error _ _ _ (dispatchBody_decode_error _ _ _ h1 hd), handleExc_keyError]
    rfl
  · intro fd m m' f k h1 h2 h3 _ h5
    rw [generate_reply_error _ _ _ (dispatchBody_handler_error fd m m' f _ h1 h2 h3 h5),
      handleExc_keyError]

/-- Witness for C5: concrete dispatches for each missing-field stage. -/
theorem c5_missing_field_reply_witness :
    generate_reply [("echo", echoHandler)] [("payload", Value.str "aGk=")] =
      errReply "JSON object missing required field'type'" ∧
    generate_reply [("echo", echoHandler)] [("type", Value.str "echo")] =
      errReply "JSON object missing required field'payload'" ∧
    generate_reply [("ex", needsField "extra")]
        [("type", Value.str "ex"), ("payload", Value.str "aGk=")] =
      errReply "JSON object missing required field'extra'" ∧
    decode_payload [] ≠ .error .missingPayload :=
  ⟨c5_missing_field_reply.1 _ _ rfl,
   c5_missing_field_reply.2.1 _ _ rfl rfl,
   c5_missing_field_reply.2.2.1 [("ex", needsField "extra")]
     [("type", Value.str "ex"), ("payload", Value.str "aGk=")]
     [("type", Value.str "ex"), ("payload", Value.bytes [104, 105])]
     (needsField "extra") "extra" rfl rfl rfl rfl rfl,
   c5_missing_field_reply.2.2.2.1 []⟩

/-- C6: a `type` value that is present but not a registry key gives exactly
the fixed "File type not recognized" reply — for every registry with that
property and whatever its handlers would do, so no handler is invoked. -/
theorem c6_unrecognized_type (fd : Registry) (m : Message) (v : Value)
    (ht : lookup m "type" = some v) (hv : valueInRegistry fd v = false) :
    generate_reply fd m = errReply "File type not recognized" := by
  have hval : validate_json fd m = .error .unrecognizedFileType := by
    simp [validate_json, ht, hv]
  rw [generate_reply_error _ _ _ (dispatchBody_validate_error _ _ _ hval)]
  rfl

/-- Witness for C6: dispatching an unregistered type. -/
theorem c6_unrecognized_type_witness :
    generate_reply [("echo", echoHandler)]
        [("type", Value.str "nope"), ("payload", Value.str "aGk=")] =
      errReply "File type not recognized" :=
  c6_unrecognized_type [("echo", echoHandler)]
    [("type", Value.str "nope"), ("payload", Value.str "aGk=")] (Value.str "nope") rfl rfl

/-- C7: a handler fault that is none of the dispatcher's own exception
kinds bubbling through (and not a `KeyError`, which has its own clause) is
caught by the final `except Exception` clause: the reply is
`"Server error: " + str(error)` and nothing propagates to the caller. -/
theorem c7_handler_fault_isolation (fd : Registry) (m m' : Message) (f : Handler) (e : PyExc)
    (h1 : validate_json fd m = .ok ()) (h2 : decode_payload m = .ok m')
    (h3 : handlerLookup fd m' = .ok f) (h4 : f m' = .error e)
    (h5 : e.isUnclassified = true) :
    generate_reply fd m = errReply ("Server error: " ++ e.text) := by
  rw [generate_reply_error _ _ _ (dispatchBody_handler_error fd m m' f e h1 h2 h3 h4)]
  exact handleExc_unclassified e h5

/-- Witness for C7: a handler that raises an arbitrary exception. -/
theorem c7_handler_fault_isolation_witness :
    generate_reply [("t", boomHandler)]
        [("type", Value.str "t"), ("payload", Value.str "aGk=")] =
      errReply "Server error: boom" :=
  c7_handler_fault_isolation [("t", boomHandler)]
    [("type", Value.str "t"), ("payload", Value.str "aGk=")]
    [("type", Value.str "t"), ("payload", Value.bytes [104, 105])]
    boomHandler (.other "boom") rfl rfl rfl rfl rfl

/-- C8 counterexample: with a handler whose result is a `str`, the success
envelope cannot be base64-encoded — `encode_payload` fails on it — yet the
reply is the generic `"Server error: ..."` one, not the claimed
`"Cannot encode payload into base64"`: `b64encode` raises `TypeError`, not
`binascii.Error`, so the `CantEncodePayloadError` conversion never fires. -/
theorem c8_counterexample :
    encode_payload [("status", Value.str "ok"), ("payload", Value.str "oops")] =
      .error (.typeError "a bytes-like object is required, not 'str'") ∧
    generate_reply [("t", strResultHandler)]
        [("type", Value.str "t"), ("payload", Value.str "aGk=")] =
      errReply "Server error: a bytes-like object is required, not 'str'" ∧
    generate_reply [("t", strResultHandler)]
        [("type", Value.str "t"), ("payload", Value.str "aGk=")] ≠
      errReply "Cannot encode payload into base64" :=
  ⟨rfl, rfl, by decide⟩

/-- C8 amended: `encode_payload` can never fail with
`CantEncodePayloadError` — its only trigger would be a `binascii.Error`
from `b64encode`, which cannot occur — and when the handler's result is a
value that cannot be base64-encoded (not a bytes object), the `TypeError`
from `b64encode` falls through to the catch-all clause, so `generate_reply`
returns `"Server error: " + str(error)` instead of the fixed message. -/
theorem c8_amended_encode_failure :
    (∀ m : Message, encode_payload m ≠ .error .cantEncodePayload) ∧
    (∀ (fd : Registry) (m m' : Message) (f : Handler) (v : Value),
      validate_json fd m = .ok () → decode_payload m = .ok m' →
      handlerLookup fd m' = .ok f → f m' = .ok v → (∀ b, v ≠ .bytes b) →
      ∃ msg, b64encode v = .error (.typeError msg) ∧
        generate_reply fd m = errReply ("Server error: " ++ msg)) := by
  refine ⟨encode_payload_ne_cantEncode, ?_⟩
  intro fd m m' f v h1 h2 h3 h4 hv
  have hdb := dispatchBody_handler_ok fd m m' f v h1 h2 h3 h4
  cases v with
  | bytes b => exact absurd rfl (hv b)
  | str s =>
      refine ⟨"a bytes-like object is required, not 'str'", rfl, ?_⟩
      have henc : encode_payload [("status", Value.str "ok"), ("payload", Value.str s)] =
          .error (.typeError "a bytes-like object is required, not 'str'") := rfl
      rw [generate_reply_error _ _ _ (hdb.trans henc)]
      rfl
  | intV n =>
      refine ⟨"a bytes-like object is required, not 'int'", rfl, ?_⟩
      have henc : encode_payload [("status", Value.str "ok"), ("payload", Value.intV n)] =
          .error (.typeError "a bytes-like object is required, not 'int'") := rfl
      rw [generate_reply_error _ _ _ (hdb.trans henc)]
      rfl

/-- Witness for the amended C8: the `str`-returning handler. -/
theorem c8_amended_witness :
    encode_payload [] ≠ .error .cantEncodePayload ∧
    ∃ msg, b64encode (Value.str "oops") = .error (.typeError msg) ∧
      generate_reply [("t", strResultHandler)]
          [("type", Value.str "t"), ("payload", Value.str "aGk=")] =
        errReply ("Server error: " ++ msg) :=
  ⟨c8_amended_encode_failure.1 [],
   c8_amended_encode_failure.2 [("t", strResultHandler)]
     [("type", Value.str "t"), ("payload", Value.str "aGk=")]
     [("type", Value.str "t"), ("payload", Value.bytes [104, 105])]
     strResultHandler (Value.str "oops") rfl rfl rfl rfl (fun _ h => nomatch h)⟩

/-- A successful `decode_payload` is exactly a `setKey` of the `payload`
entry of a message that has one. -/
theorem decode_payload_ok_inv (m m' : Message) (h : decode_payload m = .ok m') :
    ∃ out, (lookup m "payload").isSome ∧ m' = setKey m "payload" (Value.bytes out) := by
  unfold decode_payload at h
  cases hl : lookup m "payload" with
  | none => simp [hl] at h
  | some v =>
      simp only [hl] at h
      cases hb : b64decode v with
      | ok out =>
          simp only [hb] at h
          exact ⟨out, by simp, ((Except.ok.injEq _ _).mp h).symm⟩
      | error e => cases e <;> simp [hb] at h

/-- A successful `encode_payload` is exactly a `setKey` of the `payload`
entry of a message that has one. -/
theorem encode_payload_ok_inv (m m' : Message) (h : encode_payload m = .ok m') :
    ∃ s, (lookup m "payload").isSome ∧ m' = setKey m "payload" (Value.str s) := by
  unfold encode_payload at h
  cases hl : lookup m "payload" with
  | none => simp [hl] at h
  | some v =>
      simp only [hl] at h
      cases hb : b64encode v with
      | ok s =>
          simp only [hb] at h
          exact ⟨s, by simp, ((Except.ok.injEq _ _).mp h).symm⟩
      | error e => cases e <;> simp [hb] at h

/-- C9: when they succeed, `decode_payload` and `encode_payload` modify
only the `payload` entry of the message they are given: every other key
maps to an unchanged value and the key list — hence the set of keys and
their order — is exactly that of the caller's mapping. -/
theorem c9_frame (m m' : Message) :
    (decode_payload m = .ok m' →
      keys m' = keys m ∧ ∀ k, k ≠ "payload" → lookup m' k = lookup m k) ∧
    (encode_payload m = .ok m' →
      keys m' = keys m ∧ ∀ k, k ≠ "payload" → lookup m' k = lookup m k) := by
  constructor
  · intro h
    obtain ⟨out, hs, rfl⟩ := decode_payload_ok_inv m m' h
    exact ⟨keys_setKey m "payload" _ hs, fun k hk => lookup_setKey_ne m "payload" k _ hk⟩
  · intro h
    obtain ⟨s, hs, rfl⟩ := encode_payload_ok_inv m m' h
    exact ⟨keys_setKey m "payload" _ hs, fun k hk => lookup_setKey_ne m "payload" k _ hk⟩

/-- Witness for C9: decoding a message with an extra field. -/
theorem c9_frame_witness :
    keys [("type", Value.str "echo"), ("payload", Value.bytes [104, 105]),
        ("n", Value.intV 7)] =
      keys [("type", Value.str "echo"), ("payload", Value.str "aGk="),
        ("n", Value.intV 7)] ∧
    ∀ k, k ≠ "payload" →
      lookup [("type", Value.str "echo"), ("payload", Value.bytes [104, 105]),
          ("n", Value.intV 7)] k =
        lookup [("type", Value.str "echo"), ("payload", Value.str "aGk="),
          ("n", Value.intV 7)] k :=
  (c9_frame [("type", Value.str "echo"), ("payload", Value.str "aGk="), ("n", Value.intV 7)]
    [("type", Value.str "echo"), ("payload", Value.bytes [104, 105]),
      ("n", Value.intV 7)]).1 rfl

/-- C10: when the registered handler raises a `KeyError` — for any reason
of its own, not only because a message field is absent — the
`except KeyError` clause answers with the missing-field reply built from
the error's key text, not with the `"Server error: "` catch-all. -/
theorem c10_handler_keyerror (fd : Registry) (m m' : Message) (f : Handler) (k : String)
    (h1 : validate_json fd m = .ok ()) (h2 : decode_payload m = .ok m')
    (h3 : handlerLookup fd m' = .ok f) (h4 : f m' = .error (.keyError k)) :
    generate_reply fd m = errReply ("JSON object missing required field'" ++ k ++ "'") := by
  rw [generate_reply_error _ _ _ (dispatchBody_handler_error fd m m' f _ h1 h2 h3 h4),
    handleExc_keyError]

/-- Witness for C10: a handler raising a `KeyError` unrelated to any
message field still gets the missing-field reply. -/
theorem c10_handler_keyerror_witness :
    generate_reply [("t", keyFaultHandler)]
        [("type", Value.str "t"), ("payload", Value.str "aGk=")] =
      errReply "JSON object missing required field'unrelated'" :=
  c10_handler_keyerror [("t", keyFaultHandler)]
    [("type", Value.str "t"), ("payload", Value.str "aGk=")]
    [("type", Value.str "t"), ("payload", Value.bytes [104, 105])]
    keyFaultHandler "unrelated" rfl rfl rfl rfl

end MessageHandlerPy
